import Mathlib

/-!
Verification of the hierarchical scope-partitioned key/value store
(`redbot/core/config.py`): a shallow embedding of the `Value`, `Group`
and `Config` classes over a JSON-like document model, together with a
driver modelled from the specification's driver interface, and theorems
settling the behavioural claims about registration, reads, writes,
clearing and scope isolation.
-/

namespace Red

/-- A JSON-like Python value: `None`, booleans, integers, strings,
lists, and dicts (modelled as insertion-ordered association lists,
matching Python dict semantics). -/
inductive JSON where
  | null
  | bool (b : Bool)
  | int (n : Int)
  | str (s : String)
  | arr (xs : List JSON)
  | obj (entries : List (String × JSON))
deriving Repr

/-- Python exception values raised by the embedded code. -/
inductive PyErr where
  | keyError (msg : String)
  | valueError (msg : String)
  | runtimeError (msg : String)
  | attributeError (msg : String)
  | typeError (msg : String)
deriving Repr, DecidableEq

/-- `isinstance(v, dict)`. -/
def JSON.isObj : JSON → Bool
  | .obj _ => true
  | _ => false

/-- `v is None`. -/
def JSON.isNull : JSON → Bool
  | .null => true
  | _ => false

/-- Entries of a dict, or `[]` for a non-dict. -/
def JSON.entriesD : JSON → List (String × JSON)
  | .obj es => es
  | _ => []

/-- Python `d[k]` / `d.get(k)` on an insertion-ordered dict. -/
def objFind {α : Type} : List (String × α) → String → Option α
  | [], _ => none
  | (k', v) :: rest, k => if k' = k then some v else objFind rest k

/-- Python `d[k] = v`: overwrite in place keeping the key's position,
or append the new key at the end. -/
def objSet {α : Type} : List (String × α) → String → α → List (String × α)
  | [], k, v => [(k, v)]
  | (k', v') :: rest, k, v =>
    if k' = k then (k', v) :: rest else (k', v') :: objSet rest k v

/-- Python `del d[k]`. -/
def objDel {α : Type} : List (String × α) → String → List (String × α)
  | [], _ => []
  | (k', v') :: rest, k =>
    if k' = k then objDel rest k else (k', v') :: objDel rest k

/-- Python `base.update(upd)`: each key of `upd` is written into `base`
in order. -/
def dictUpdate {α : Type} : List (String × α) → List (String × α) → List (String × α)
  | base, [] => base
  | base, (k, v) :: rest => dictUpdate (objSet base k v) rest

/-- Modelled from the spec: the driver interface (spec section 6,
`drivers/red_json.py` is not under `src/`).  `get(path)` walks string
segments through nested dicts and reports NotFound (`none`, Python
`KeyError`) when no entry exists at that exact path. -/
def driverGet : JSON → List String → Option JSON
  | v, [] => some v
  | .obj es, k :: ks =>
    match objFind es k with
    | some v => driverGet v ks
    | none => none
  | _, _ :: _ => none

/-- Modelled from the spec: the driver interface (spec section 6).
`set(path, value)` replaces the entire subtree/value at `path`,
creating intermediate dicts as needed. -/
def driverSet : JSON → List String → JSON → JSON
  | _, [], v => v
  | .obj es, k :: ks, v =>
    .obj (objSet es k (driverSet ((objFind es k).getD (.obj [])) ks v))
  | _, k :: ks, v => .obj [(k, driverSet (.obj []) ks v)]

/-- Modelled from the spec: outright deletion of the stored entry at a
path, where the driver supports it (spec section 4.1, `clear()`). -/
def driverDelete : JSON → List String → JSON
  | store, [] => store
  | .obj es, [k] => .obj (objDel es k)
  | .obj es, k :: ks =>
    match objFind es k with
    | some child => .obj (objSet es k (driverDelete child ks))
    | none => .obj es
  | store, _ :: _ => store

/-- An element of a Python identifiers tuple: a string or an int id
(ids are stringified by the `identifiers` property). -/
inductive PyIdent where
  | str (s : String)
  | int (n : Int)
deriving Repr, DecidableEq

/-- The raw `_identifiers` object held by a `Value`.  It is normally a
tuple, but `Config._clear_scope` passes a bare string
(`identifiers=(self.unique_identifier)` has no trailing comma), and
iterating a Python string yields its characters. -/
inductive PyIdentifiers where
  | tuple (xs : List PyIdent)
  | str (s : String)
deriving Repr, DecidableEq

/-- `str(i)` for one tuple element. -/
def PyIdent.toStr : PyIdent → String
  | .str s => s
  | .int n => toString n

/-- Python iteration over the `_identifiers` object: a tuple yields its
elements; a string yields its characters as 1-character strings. -/
def PyIdentifiers.elems : PyIdentifiers → List PyIdent
  | .tuple xs => xs
  | .str s => s.data.map (fun c => PyIdent.str (String.singleton c))

/-- The `Value.identifiers` property:
`tuple(str(i) for i in self._identifiers)`. -/
def identifiersOf (raw : PyIdentifiers) : List String :=
  raw.elems.map PyIdent.toStr

/-- The `Value` class: a leaf accessor bound to raw identifiers and a
registered default. -/
structure Value where
  raw : PyIdentifiers
  default : JSON
deriving Repr

/-- `Value.identifiers`. -/
def Value.identifiers (v : Value) : List String :=
  identifiersOf v.raw

/-- `Value.__call__` / `Value._get`: fetch through the driver; on
`KeyError` return the override unless it is `None`, else the registered
default. -/
def Value.call (v : Value) (d : JSON) (store : JSON) : JSON :=
  match driverGet store v.identifiers with
  | some ret => ret
  | none => if d.isNull then v.default else d

/-- `Value.set`: store `value` at this path through the driver. -/
def Value.set (v : Value) (value : JSON) (store : JSON) : JSON :=
  driverSet store v.identifiers value

/-- Modelled from the spec: `Value.clear` (spec section 4.1) is absent
from `src/redbot/core/config.py`; only its caller `test_clear_value`
is under `src/`.  It "resets to default by deleting the stored entry at
this path". -/
def Value.clear (v : Value) (store : JSON) : JSON :=
  driverDelete store v.identifiers

/-- Modelled from the spec: the scoped mutable edit context (spec
section 4.2) is absent from `src/redbot/core/config.py`; only its
callers `test_value_ctxmgr` / `test_value_ctxmgr_saves` are under
`src/`.  It "acquires the current effective value (stored-or-default)"
(the source's `_get` with no override), "yields it for in-place
mutation by the caller" (`f`), "and on normal exit persists the mutated
container back through `write`" (the source's `Value.set`). -/
def Value.editContext (v : Value) (f : JSON → JSON) (store : JSON) : JSON :=
  Value.set v (f (Value.call v .null store)) store

/-- In-place `list.append(item)` on the yielded container; a non-list
is left unchanged. -/
def JSON.append (j item : JSON) : JSON :=
  match j with
  | .arr xs => .arr (xs ++ [item])
  | _ => j

/-- The `Group` class: a subtree accessor with a registered-defaults
subtree.  Its inherited `Value` default is the empty dict. -/
structure Group where
  raw : PyIdentifiers
  defaults : List (String × JSON)
  force_registration : Bool
deriving Repr

/-- The `Value` a `Group` behaves as (`super().__init__(identifiers,
{}, ...)`: the inherited default is `{}`). -/
def Group.toValue (g : Group) : Value :=
  { raw := g.raw, default := .obj [] }

/-- `Group.identifiers`. -/
def Group.identifiers (g : Group) : List String :=
  identifiersOf g.raw

/-- `Group.is_group`: the child's registered default is a dict. -/
def Group.is_group (g : Group) (item : String) : Bool :=
  match objFind g.defaults item with
  | some d => d.isObj
  | none => false

/-- `Group.is_value`: the child is registered with a non-dict default. -/
def Group.is_value (g : Group) (item : String) : Bool :=
  match objFind g.defaults item with
  | some d => !d.isObj
  | none => false

/-- Result of attribute resolution on a `Group`. -/
inductive Node where
  | group (g : Group)
  | value (v : Value)
deriving Repr

/-- `Group.__getattr__`: resolve a child key against the registered
defaults; a dict default yields a child `Group`, a non-dict default a
`Value`, an unregistered key an `AttributeError` under
`force_registration` and otherwise a `Value` with default `None`. -/
def Group.getattr (g : Group) (item : String) : Except PyErr Node :=
  let newRaw := PyIdentifiers.tuple ((g.identifiers ++ [item]).map PyIdent.str)
  if g.is_group item then
    .ok (.group { raw := newRaw,
                  defaults := ((objFind g.defaults item).getD (.obj [])).entriesD,
                  force_registration := g.force_registration })
  else if g.is_value item then
    .ok (.value { raw := newRaw, default := (objFind g.defaults item).getD .null })
  else if g.force_registration then
    .error (.attributeError item)
  else
    .ok (.value { raw := newRaw, default := .null })

/-- Awaiting a `Group` directly: the inherited `Value.__call__` with no
override, whose fallback default is the empty dict. -/
def Group.call (g : Group) (store : JSON) : JSON :=
  Value.call g.toValue .null store

/-- `Group.all`: a copy of the registered defaults updated with the
stored document at this path (`defaults.update(await self())`); a
non-dict stored document is a `TypeError` for `dict.update`. -/
def Group.allData (g : Group) (store : JSON) : Except PyErr JSON :=
  match g.call store with
  | .obj es => .ok (.obj (dictUpdate g.defaults es))
  | _ => .error (.typeError "dict.update")

/-- The message of the `ValueError` raised by `Group.set`. -/
def groupSetMsg : String := "You may only set the value of a group to be a dict."

/-- `Group.set`: a non-dict value raises `ValueError` before the driver
is invoked (the store is returned unchanged); a dict is written through
`Value.set`. -/
def Group.set (g : Group) (value : JSON) (store : JSON) : JSON × Option PyErr :=
  if value.isObj then (Value.set g.toValue value store, none)
  else (store, some (.valueError groupSetMsg))

/-- `Group.clear`: `await self.set({})`. -/
def Group.clear (g : Group) (store : JSON) : JSON × Option PyErr :=
  g.set (.obj []) store

/-- ASCII model of Python `str.isidentifier()`: nonempty, first
character a letter or underscore, the rest letters, digits or
underscores. -/
def isidentifier (s : String) : Bool :=
  match s.data with
  | [] => false
  | c :: cs => (c.isAlpha || c == '_') && cs.all (fun d => d.isAlphanum || d == '_')

/-- Python `key.split('__')` on the character list: greedy leftmost
non-overlapping split on the double-underscore separator. -/
def splitDunder : List Char → List (List Char)
  | [] => [[]]
  | ['_'] => [['_']]
  | '_' :: '_' :: rest => [] :: splitDunder rest
  | c :: rest =>
    match splitDunder rest with
    | part :: parts => (c :: part) :: parts
    | [] => [[c]]

/-- `key.split('__')` as strings. -/
def pySplitDunder (s : String) : List String :=
  (splitDunder s.data).map (fun cs => String.mk cs)

/-- The message of the `RuntimeError` raised for an invalid config key
segment. -/
def invalidKeyMsg (k : String) : String :=
  "'" ++ k ++ "' is an invalid config key."

/-- The nested-dict builder inside `Config._get_defaults_dict`: walk
the split segments, validating each with `isidentifier` and nesting a
fresh dict per non-final segment. -/
def buildNested : List String → JSON → Except PyErr (List (String × JSON))
  | [], _ => .ok []
  | [k], v =>
    if isidentifier k then .ok [(k, v)] else .error (.runtimeError (invalidKeyMsg k))
  | k :: ks, v =>
    if isidentifier k then
      (buildNested ks v).map (fun inner => [(k, JSON.obj inner)])
    else .error (.runtimeError (invalidKeyMsg k))

/-- `Config._get_defaults_dict`: split the key on `__` and build the
corresponding nested defaults dict. -/
def Config._get_defaults_dict (key : String) (value : JSON) :
    Except PyErr (List (String × JSON)) :=
  buildNested (pySplitDunder key) value

/-- The message of the `KeyError` raised on a registration conflict. -/
def conflictMsg : String :=
  "You cannot register a Group and a Value under the same name."

mutual
/-- `Config._update_defaults`: merge `to_add` into the mutable defaults
tree in insertion order.  Mutation is in place, so on an exception the
partially mutated tree is returned alongside the error. -/
def Config._update_defaults :
    List (String × JSON) → List (String × JSON) →
    List (String × JSON) × Option PyErr
  | [], p => (p, none)
  | (k, v) :: rest, p =>
    match Config.updOne k v p with
    | (p', some e) => (p', some e)
    | (p', none) => Config._update_defaults rest p'

/-- One iteration of the `Config._update_defaults` loop: a dict over a
dict recurses (writing the partially updated subtree back in place), a
kind mismatch raises the conflict `KeyError`, and otherwise the entry
is written. -/
def Config.updOne (k : String) (v : JSON) (p : List (String × JSON)) :
    List (String × JSON) × Option PyErr :=
  match objFind p k, v with
  | some (JSON.obj ees), JSON.obj ves =>
    match Config._update_defaults ves ees with
    | (ees', err) => (objSet p k (JSON.obj ees'), err)
  | some (JSON.obj _), _ => (p, some (.keyError conflictMsg))
  | some _, JSON.obj _ => (p, some (.keyError conflictMsg))
  | some _, _ => (objSet p k v, none)
  | none, _ => (objSet p k v, none)
end

/-- The loop body of `Config._register_default`: for each keyword in
order, build the nested defaults dict and merge it into the scope's
tree; an exception stops the loop, keeping earlier merges. -/
def registerKwargs :
    List (String × JSON) → List (String × JSON) →
    List (String × JSON) × Option PyErr
  | [], scope => (scope, none)
  | (k, v) :: rest, scope =>
    match Config._get_defaults_dict k v with
    | .error e => (scope, some e)
    | .ok toAdd =>
      match Config._update_defaults toAdd scope with
      | (scope', some e) => (scope', some e)
      | (scope', none) => registerKwargs rest scope'

/-- The `Config` class: the unique identifier, the strict-registration
flag and the per-scope defaults trees. -/
structure Config where
  unique_identifier : String
  force_registration : Bool
  defaultsTree : List (String × List (String × JSON))
deriving Repr

/-- The scope tag constants of `Config`. -/
def Config.GLOBAL : String := "GLOBAL"

/-- `Config.GUILD`. -/
def Config.GUILD : String := "GUILD"

/-- `Config.MEMBER`. -/
def Config.MEMBER : String := "MEMBER"

/-- `Config._register_default`: ensure the scope key exists, then merge
each keyword's nested defaults into the scope tree in order; the
(possibly partially) mutated tree is written back even when an
exception propagates. -/
def Config._register_default (c : Config) (key : String)
    (kwargs : List (String × JSON)) : Config × Option PyErr :=
  let scope0 := (objFind c.defaultsTree key).getD []
  match registerKwargs kwargs scope0 with
  | (scope', err) =>
    ({ c with defaultsTree := objSet c.defaultsTree key scope' }, err)

/-- `Config.register_global`. -/
def Config.register_global (c : Config) (kwargs : List (String × JSON)) :
    Config × Option PyErr :=
  c._register_default Config.GLOBAL kwargs

/-- `Config._get_base_group`: a `Group` rooted at
`(unique_identifier, scope_tag, ids...)` with that scope's registered
defaults.  Scope-object ids are modelled already stringified. -/
def Config._get_base_group (c : Config) (key : String) (ids : List String) : Group :=
  { raw := .tuple (((c.unique_identifier :: key :: ids)).map PyIdent.str),
    defaults := (objFind c.defaultsTree key).getD [],
    force_registration := c.force_registration }

/-- `Config._clear_scope`: with no scopes, the cleared group is built
with `identifiers=(self.unique_identifier)` — a bare string, not a
1-tuple — and `{}` is stored at the resulting path; otherwise the base
group of the given scope path is cleared. -/
def Config._clear_scope (c : Config) (scopes : List String) (store : JSON) :
    JSON × Option PyErr :=
  match scopes with
  | [] =>
    Group.set { raw := .str c.unique_identifier, defaults := [],
                force_registration := false } (.obj []) store
  | key :: ids => Group.set (c._get_base_group key ids) (.obj []) store

/-- `Config.clear_all`. -/
def Config.clear_all (c : Config) (store : JSON) : JSON × Option PyErr :=
  c._clear_scope [] store

/-- `Config.clear_all_members`: scopes are `MEMBER` plus the guild id
when one is supplied. -/
def Config.clear_all_members (c : Config) (guild : Option String) (store : JSON) :
    JSON × Option PyErr :=
  c._clear_scope (Config.MEMBER :: guild.toList) store

/-- Reading the nested path `a.b` through attribute resolution:
`conf.a.b` resolved from a base group, then awaited (a child `Value` is
read with no override; a child `Group` is awaited directly; attribute
access on a resolved `Value` is an `AttributeError`). -/
def readPath2 (g : Group) (a b : String) (store : JSON) : Except PyErr JSON :=
  match g.getattr a with
  | .error e => .error e
  | .ok (.value _) => .error (.attributeError b)
  | .ok (.group g') =>
    match g'.getattr b with
    | .error e => .error e
    | .ok (.group g'') => .ok (g''.call store)
    | .ok (.value v) => .ok (v.call .null store)

/-! ### Helper lemmas about the dict and driver operations -/

theorem objFind_objSet_self {α : Type} (es : List (String × α)) (k : String) (v : α) :
    objFind (objSet es k v) k = some v := by
  induction es with
  | nil => simp [objSet, objFind]
  | cons e rest ih =>
    obtain ⟨k', v'⟩ := e
    by_cases h : k' = k <;> simp [objSet, objFind, h, ih]

theorem objFind_objSet_ne {α : Type} (es : List (String × α)) (k k' : String) (v : α)
    (h : k ≠ k') : objFind (objSet es k v) k' = objFind es k' := by
  induction es with
  | nil => simp [objSet, objFind, h]
  | cons e rest ih =>
    obtain ⟨k0, v0⟩ := e
    by_cases h0 : k0 = k
    · subst h0
      simp [objSet, objFind, h]
    · simp [objSet, objFind, h0, ih]

theorem objSet_find_self {α : Type} (es : List (String × α)) (k : String) (v : α)
    (h : objFind es k = some v) : objSet es k v = es := by
  induction es with
  | nil => simp [objFind] at h
  | cons e rest ih =>
    obtain ⟨k0, v0⟩ := e
    by_cases h0 : k0 = k
    · subst h0
      simp [objFind] at h
      simp [objSet, h]
    · simp [objFind, h0] at h
      simp [objSet, h0, ih h]

theorem objFind_objDel_self {α : Type} (es : List (String × α)) (k : String) :
    objFind (objDel es k) k = none := by
  induction es with
  | nil => simp [objDel, objFind]
  | cons e rest ih =>
    obtain ⟨k0, v0⟩ := e
    by_cases h0 : k0 = k <;> simp [objDel, objFind, h0, ih]

theorem objFind_none_of_not_mem {α : Type} (es : List (String × α)) (k : String)
    (h : k ∉ es.map Prod.fst) : objFind es k = none := by
  induction es with
  | nil => simp [objFind]
  | cons e rest ih =>
    obtain ⟨k0, v0⟩ := e
    simp only [List.map_cons, List.mem_cons, not_or] at h
    have h1 : k0 ≠ k := fun hk => h.1 hk.symm
    simp [objFind, h1, ih h.2]

theorem objFind_dictUpdate_none {α : Type} (upd base : List (String × α)) (k : String)
    (h : objFind upd k = none) :
    objFind (dictUpdate base upd) k = objFind base k := by
  induction upd generalizing base with
  | nil => simp [dictUpdate]
  | cons e rest ih =>
    obtain ⟨k0, v0⟩ := e
    by_cases h0 : k0 = k
    · simp [objFind, h0] at h
    · simp [objFind, h0] at h
      simp [dictUpdate, ih _ h, objFind_objSet_ne _ _ _ _ h0]

theorem objFind_dictUpdate_some {α : Type} (upd base : List (String × α)) (k : String) (v : α)
    (hnodup : (upd.map Prod.fst).Nodup)
    (h : objFind upd k = some v) :
    objFind (dictUpdate base upd) k = some v := by
  induction upd generalizing base with
  | nil => simp [objFind] at h
  | cons e rest ih =>
    obtain ⟨k0, v0⟩ := e
    simp only [List.map_cons, List.nodup_cons] at hnodup
    by_cases h0 : k0 = k
    · subst h0
      simp [objFind] at h
      subst h
      have hrest : objFind rest k0 = none :=
        objFind_none_of_not_mem _ _ hnodup.1
      simp [dictUpdate, objFind_dictUpdate_none _ _ _ hrest, objFind_objSet_self]
    · simp [objFind, h0] at h
      simp [dictUpdate, ih _ hnodup.2 h]

theorem driverGet_driverSet_append (p : List String) (store v : JSON) (q : List String) :
    driverGet (driverSet store p v) (p ++ q) = driverGet v q := by
  induction p generalizing store with
  | nil => simp [driverSet]
  | cons k p ih =>
    cases store <;>
      simp [driverSet, driverGet, objFind, objFind_objSet_self, ih]

theorem driverGet_driverSet_same (p : List String) (store v : JSON) :
    driverGet (driverSet store p v) p = some v := by
  have h := driverGet_driverSet_append p store v []
  simpa [driverGet] using h

theorem driverGet_objnil_cons (r : String) (rs : List String) :
    driverGet (JSON.obj []) (r :: rs) = none := rfl

theorem driverGet_driverSet_ne (p : List String) (x y : String) (xs ys : List String)
    (store v : JSON) (hxy : x ≠ y) :
    driverGet (driverSet store (p ++ x :: xs) v) (p ++ y :: ys)
      = driverGet store (p ++ y :: ys) := by
  induction p generalizing store with
  | nil =>
    cases store <;>
      simp [driverSet, driverGet, objFind, objFind_objSet_ne _ _ _ _ hxy, hxy]
  | cons a p ih =>
    cases store with
    | obj es =>
      simp only [List.cons_append, driverSet, driverGet, objFind_objSet_self]
      cases hfind : objFind es a with
      | some child => simp [driverGet, hfind, ih]
      | none =>
        have h0 : driverGet (JSON.obj []) (p ++ y :: ys) = none := by
          cases p <;> simp [driverGet, objFind]
        simp [driverGet, hfind, ih, h0]
    | null =>
      simp only [List.cons_append, driverSet, driverGet, objFind, if_pos rfl]
      have h0 : driverGet (JSON.obj []) (p ++ y :: ys) = none := by
        cases p <;> simp [driverGet, objFind]
      simp [ih, h0]
    | bool b =>
      simp only [List.cons_append, driverSet, driverGet, objFind, if_pos rfl]
      have h0 : driverGet (JSON.obj []) (p ++ y :: ys) = none := by
        cases p <;> simp [driverGet, objFind]
      simp [ih, h0]
    | int n =>
      simp only [List.cons_append, driverSet, driverGet, objFind, if_pos rfl]
      have h0 : driverGet (JSON.obj []) (p ++ y :: ys) = none := by
        cases p <;> simp [driverGet, objFind]
      simp [ih, h0]
    | str s =>
      simp only [List.cons_append, driverSet, driverGet, objFind, if_pos rfl]
      have h0 : driverGet (JSON.obj []) (p ++ y :: ys) = none := by
        cases p <;> simp [driverGet, objFind]
      simp [ih, h0]
    | arr l =>
      simp only [List.cons_append, driverSet, driverGet, objFind, if_pos rfl]
      have h0 : driverGet (JSON.obj []) (p ++ y :: ys) = none := by
        cases p <;> simp [driverGet, objFind]
      simp [ih, h0]

theorem driverGet_driverDelete_self (p : List String) (store : JSON) (h : p ≠ []) :
    driverGet (driverDelete store p) p = none := by
  induction p generalizing store with
  | nil => exact absurd rfl h
  | cons k ks ih =>
    cases ks with
    | nil =>
      cases store <;> simp [driverDelete, driverGet, objFind, objFind_objDel_self]
    | cons a ks' =>
      cases store with
      | obj es =>
        cases hfind : objFind es k with
        | some child =>
          simp [driverDelete, hfind, driverGet, objFind_objSet_self, ih]
        | none =>
          simp [driverDelete, hfind, driverGet]
      | null => simp [driverDelete, driverGet]
      | bool b => simp [driverDelete, driverGet]
      | int n => simp [driverDelete, driverGet]
      | str s => simp [driverDelete, driverGet]
      | arr l => simp [driverDelete, driverGet]

theorem identifiersOf_tuple_str (xs : List String) :
    identifiersOf (PyIdentifiers.tuple (xs.map PyIdent.str)) = xs := by
  simp [identifiersOf, PyIdentifiers.elems, List.map_map]
  exact List.map_id xs

theorem identifiersOf_tuple_nil : identifiersOf (PyIdentifiers.tuple []) = [] := rfl

theorem identifiersOf_tuple_str_cons (s : String) (xs : List PyIdent) :
    identifiersOf (PyIdentifiers.tuple (PyIdent.str s :: xs))
      = s :: identifiersOf (PyIdentifiers.tuple xs) := rfl

/-! ### Claim theorems -/

/-- C1: for every `Value` whose registered default is a mutable
container (a registered list default, with nothing yet stored at its
path), entering the scoped mutable edit context and appending an item
to the yielded container persists the mutated container through
`write` on exit, so that a subsequent independent read (a plain
`Value.call`, not through the edit block) returns the container
including the appended item. -/
theorem C1_edit_context_persists (v : Value) (store : JSON) (xs : List JSON) (item : JSON)
    (hdef : v.default = JSON.arr xs)
    (habs : driverGet store v.identifiers = none) :
    Value.call v .null (Value.editContext v (fun j => JSON.append j item) store)
      = JSON.arr (xs ++ [item]) := by
  have h1 : Value.call v JSON.null store = JSON.arr xs := by
    simp [Value.call, habs, JSON.isNull, hdef]
  simp only [Value.editContext, h1, JSON.append]
  simp [Value.call, Value.set, driverGet_driverSet_same]

/-- Witness for C1: a guild-scope `roles` value with registered
default `[]`; appending `"admin"` inside the edit context is observed
by an independent read. -/
theorem C1_edit_context_persists_witness :
    Value.call ⟨.tuple [.str "0", .str "GUILD", .str "42", .str "roles"], JSON.arr []⟩ .null
      (Value.editContext ⟨.tuple [.str "0", .str "GUILD", .str "42", .str "roles"], JSON.arr []⟩
        (fun j => JSON.append j (JSON.str "admin")) (JSON.obj []))
      = JSON.arr ([] ++ [JSON.str "admin"]) :=
  C1_edit_context_persists _ _ _ _ rfl rfl

/-- C2: for every registered leaf key with registered default `d`
(a `Value` bound to a nonempty path with nothing yet stored there):
reading before any write returns `d`; after `write(w)` reading returns
`w`; and after `clear()` on that leaf, reading returns `d` again. -/
theorem C2_leaf_read_write_clear (v : Value) (store w : JSON)
    (habs : driverGet store v.identifiers = none)
    (hne : v.identifiers ≠ []) :
    Value.call v .null store = v.default ∧
    Value.call v .null (Value.set v w store) = w ∧
    Value.call v .null (Value.clear v (Value.set v w store)) = v.default := by
  refine ⟨?_, ?_, ?_⟩
  · simp [Value.call, habs, JSON.isNull]
  · simp [Value.call, Value.set, driverGet_driverSet_same]
  · have h := driverGet_driverDelete_self v.identifiers (Value.set v w store) hne
    simp [Value.call, Value.clear, h, JSON.isNull]

/-- Witness for C2: a global `enabled` leaf with default `False`; it
reads `False`, then `True` after a write of `True`, then `False` again
after `clear()`. -/
theorem C2_leaf_read_write_clear_witness :
    Value.call ⟨.tuple [.str "0", .str "GLOBAL", .str "enabled"], JSON.bool false⟩ .null
        (JSON.obj []) = JSON.bool false ∧
    Value.call ⟨.tuple [.str "0", .str "GLOBAL", .str "enabled"], JSON.bool false⟩ .null
        (Value.set ⟨.tuple [.str "0", .str "GLOBAL", .str "enabled"], JSON.bool false⟩
          (JSON.bool true) (JSON.obj [])) = JSON.bool true ∧
    Value.call ⟨.tuple [.str "0", .str "GLOBAL", .str "enabled"], JSON.bool false⟩ .null
        (Value.clear ⟨.tuple [.str "0", .str "GLOBAL", .str "enabled"], JSON.bool false⟩
          (Value.set ⟨.tuple [.str "0", .str "GLOBAL", .str "enabled"], JSON.bool false⟩
            (JSON.bool true) (JSON.obj []))) = JSON.bool false :=
  C2_leaf_read_write_clear ⟨.tuple [.str "0", .str "GLOBAL", .str "enabled"], JSON.bool false⟩
    (JSON.obj []) (JSON.bool true) rfl (by simp [Value.identifiers, identifiersOf,
      PyIdentifiers.elems])

/-- C7: `Group.set` with a non-dict value raises the `ValueError` and
returns the store unchanged (the driver's `set` is never invoked); with
a dict value it writes the whole subtree through the driver, after
which the stored document at the group's path is exactly that dict. -/
theorem C7_group_set_type_guard (g : Group) (value store : JSON) :
    (value.isObj = false →
      Group.set g value store = (store, some (PyErr.valueError groupSetMsg))) ∧
    (value.isObj = true →
      Group.set g value store = (driverSet store g.identifiers value, none) ∧
      driverGet (Group.set g value store).1 g.identifiers = some value) := by
  constructor
  · intro h
    simp [Group.set, h]
  · intro h
    constructor
    · simp [Group.set, h, Value.set, Value.identifiers, Group.toValue, Group.identifiers]
    · simp [Group.set, h, Value.set, Value.identifiers, Group.toValue, Group.identifiers,
        driverGet_driverSet_same]

/-- Witness for C7: setting `True` on a guild group raises the
`ValueError` and leaves the store unchanged; setting a dict stores it
verbatim. -/
theorem C7_group_set_type_guard_witness :
    Group.set ⟨.tuple [.str "0", .str "GUILD", .str "42"], [], false⟩ (JSON.bool true)
        (JSON.obj [("z", JSON.int 1)])
      = (JSON.obj [("z", JSON.int 1)], some (PyErr.valueError groupSetMsg)) ∧
    Group.set ⟨.tuple [.str "0", .str "GUILD", .str "42"], [], false⟩
        (JSON.obj [("k", JSON.int 2)]) (JSON.obj [("z", JSON.int 1)])
      = (driverSet (JSON.obj [("z", JSON.int 1)])
          (Group.identifiers ⟨.tuple [.str "0", .str "GUILD", .str "42"], [], false⟩)
          (JSON.obj [("k", JSON.int 2)]), none) :=
  ⟨(C7_group_set_type_guard ⟨.tuple [.str "0", .str "GUILD", .str "42"], [], false⟩
      (JSON.bool true) (JSON.obj [("z", JSON.int 1)])).1 rfl,
   ((C7_group_set_type_guard ⟨.tuple [.str "0", .str "GUILD", .str "42"], [], false⟩
      (JSON.obj [("k", JSON.int 2)]) (JSON.obj [("z", JSON.int 1)])).2 rfl).1⟩

/-- C8: `read(override)` returns the override when the driver reports
nothing stored and the override is not the `None` sentinel; returns the
registered default when nothing is stored and the override is the
sentinel; and returns the stored value regardless of the override once
a value has been explicitly written at the path. -/
theorem C8_read_override_semantics (v : Value) (ov w store : JSON) :
    (driverGet store v.identifiers = none → ov.isNull = false →
      Value.call v ov store = ov) ∧
    (driverGet store v.identifiers = none →
      Value.call v JSON.null store = v.default) ∧
    Value.call v ov (Value.set v w store) = w := by
  refine ⟨fun h hnv => ?_, fun h => ?_, ?_⟩
  · simp [Value.call, h, hnv]
  · simp [Value.call, h, JSON.isNull]
  · simp [Value.call, Value.set, driverGet_driverSet_same]

/-- Witness for C8: with nothing stored, the override `9` is returned
and the sentinel yields the default; after writing `True`, reads return
`True` regardless of the override. -/
theorem C8_read_override_semantics_witness :
    Value.call ⟨.tuple [.str "0", .str "GLOBAL", .str "nofr"], JSON.null⟩ (JSON.int 9)
        (JSON.obj []) = JSON.int 9 ∧
    Value.call ⟨.tuple [.str "0", .str "GLOBAL", .str "nofr"], JSON.null⟩ JSON.null
        (JSON.obj []) = JSON.null ∧
    Value.call ⟨.tuple [.str "0", .str "GLOBAL", .str "nofr"], JSON.null⟩ (JSON.int 9)
        (Value.set ⟨.tuple [.str "0", .str "GLOBAL", .str "nofr"], JSON.null⟩
          (JSON.bool true) (JSON.obj [])) = JSON.bool true :=
  ⟨(C8_read_override_semantics ⟨.tuple [.str "0", .str "GLOBAL", .str "nofr"], JSON.null⟩
      (JSON.int 9) (JSON.bool true) (JSON.obj [])).1 rfl rfl,
   (C8_read_override_semantics ⟨.tuple [.str "0", .str "GLOBAL", .str "nofr"], JSON.null⟩
      (JSON.int 9) (JSON.bool true) (JSON.obj [])).2.1 rfl,
   (C8_read_override_semantics ⟨.tuple [.str "0", .str "GLOBAL", .str "nofr"], JSON.null⟩
      (JSON.int 9) (JSON.bool true) (JSON.obj [])).2.2⟩

/-- C10: awaiting a `Group` directly returns exactly the raw stored
subtree at its path when one exists, and the empty mapping when the
driver reports the path absent; the registered defaults never enter the
result (the same group with any other defaults subtree reads the
same). -/
theorem C10_group_call_raw_document (g : Group) (store : JSON) :
    (∀ doc, driverGet store g.identifiers = some doc → Group.call g store = doc) ∧
    (driverGet store g.identifiers = none → Group.call g store = JSON.obj []) ∧
    (∀ ds : List (String × JSON),
      Group.call { g with defaults := ds } store = Group.call g store) := by
  have hid : Value.identifiers (Group.toValue g) = g.identifiers := rfl
  refine ⟨fun doc h => ?_, fun h => ?_, fun ds => rfl⟩
  · simp [Group.call, Value.call, hid, h]
  · have h2 : driverGet store (identifiersOf g.raw) = none := h
    simp [Group.call, Value.call, Value.identifiers, Group.toValue, h2, JSON.isNull]

/-- Witness for C10: with a stored subtree the raw document (missing a
registered key, holding an unregistered one) is returned as-is; with
nothing stored the empty dict is returned, despite a nonempty
registered defaults subtree. -/
theorem C10_group_call_raw_document_witness :
    Group.call ⟨.tuple [.str "0", .str "GUILD", .str "42"], [("enabled", JSON.bool false)], false⟩
        (JSON.obj [("0", JSON.obj [("GUILD", JSON.obj [("42", JSON.obj [("extra", JSON.int 3)])])])])
      = JSON.obj [("extra", JSON.int 3)] ∧
    Group.call ⟨.tuple [.str "0", .str "GUILD", .str "42"], [("enabled", JSON.bool false)], false⟩
        (JSON.obj []) = JSON.obj [] :=
  ⟨(C10_group_call_raw_document
      ⟨.tuple [.str "0", .str "GUILD", .str "42"], [("enabled", JSON.bool false)], false⟩
      (JSON.obj [("0", JSON.obj [("GUILD", JSON.obj [("42", JSON.obj [("extra", JSON.int 3)])])])])).1
      (JSON.obj [("extra", JSON.int 3)]) rfl,
   (C10_group_call_raw_document
      ⟨.tuple [.str "0", .str "GUILD", .str "42"], [("enabled", JSON.bool false)], false⟩
      (JSON.obj [])).2.1 rfl⟩

/-- C4: evaluation of the code at the failing input of the `clear_all`
claim.  `Config._clear_scope` builds the group to clear with
`identifiers=(self.unique_identifier)` — a bare string, not a 1-tuple —
so for the unique identifier `"42"` the `identifiers` property iterates
the string into `("4", "2")` and `{}` is stored at that wrong path:
after `clear_all()` the stored global value at `("42", "GLOBAL",
"enabled")` is still read back as `True` instead of the registered
default `False`. -/
theorem C4_clear_all_misses_stored_data :
    identifiersOf (PyIdentifiers.str "42") = ["4", "2"] ∧
    Value.call ⟨.tuple [.str "42", .str "GLOBAL", .str "enabled"], JSON.bool false⟩ .null
      ((Config.clear_all ⟨"42", false, []⟩
        (JSON.obj [("42", JSON.obj [("GLOBAL", JSON.obj [("enabled", JSON.bool true)])])])).1)
      = JSON.bool true ∧
    (⟨.tuple [.str "42", .str "GLOBAL", .str "enabled"], JSON.bool false⟩ : Value).default
      = JSON.bool false :=
  ⟨rfl, rfl, rfl⟩

/-- C6: `all()` on a group whose stored document holds some (not
necessarily all) of the registered top-level keys returns the
registered defaults updated with the stored document: every registered
key is present, a written key maps to its stored value, and an
unwritten key maps to its registered default. -/
theorem C6_all_merges_written_over_defaults (g : Group) (store : JSON)
    (ws : List (String × JSON))
    (hstored : driverGet store g.identifiers = some (JSON.obj ws))
    (hnodup : (ws.map Prod.fst).Nodup) :
    Group.allData g store = Except.ok (JSON.obj (dictUpdate g.defaults ws)) ∧
    ∀ k d, objFind g.defaults k = some d →
      (∀ w, objFind ws k = some w → objFind (dictUpdate g.defaults ws) k = some w) ∧
      (objFind ws k = none → objFind (dictUpdate g.defaults ws) k = some d) := by
  have h2 : driverGet store (identifiersOf g.raw) = some (JSON.obj ws) := hstored
  have hcall : Group.call g store = JSON.obj ws := by
    simp [Group.call, Value.call, Value.identifiers, Group.toValue, h2]
  refine ⟨?_, fun k d hk => ⟨fun w hw => ?_, fun hnone => ?_⟩⟩
  · simp [Group.allData, hcall]
  · exact objFind_dictUpdate_some _ _ _ _ hnodup hw
  · rw [objFind_dictUpdate_none _ _ _ hnone]
    exact hk

/-- Witness for C6: defaults `foo=True, bar=False` with only `foo`
written (to `False`): `all()` returns the merged dict, in which `foo`
is the stored `False` and `bar` the default `False`. -/
theorem C6_all_merges_written_over_defaults_witness :
    Group.allData
        ⟨.tuple [.str "0", .str "USER", .str "7"],
          [("foo", JSON.bool true), ("bar", JSON.bool false)], false⟩
        (JSON.obj [("0", JSON.obj [("USER", JSON.obj [("7", JSON.obj [("foo", JSON.bool false)])])])])
      = Except.ok (JSON.obj (dictUpdate [("foo", JSON.bool true), ("bar", JSON.bool false)]
          [("foo", JSON.bool false)])) ∧
    objFind (dictUpdate [("foo", JSON.bool true), ("bar", JSON.bool false)]
        [("foo", JSON.bool false)]) "foo" = some (JSON.bool false) ∧
    objFind (dictUpdate [("foo", JSON.bool true), ("bar", JSON.bool false)]
        [("foo", JSON.bool false)]) "bar" = some (JSON.bool false) := by
  have h := C6_all_merges_written_over_defaults
    ⟨.tuple [.str "0", .str "USER", .str "7"],
      [("foo", JSON.bool true), ("bar", JSON.bool false)], false⟩
    (JSON.obj [("0", JSON.obj [("USER", JSON.obj [("7", JSON.obj [("foo", JSON.bool false)])])])])
    [("foo", JSON.bool false)] rfl (by simp)
  exact ⟨h.1, (h.2 "foo" (JSON.bool true) rfl).1 (JSON.bool false) rfl,
    (h.2 "bar" (JSON.bool false) rfl).2 rfl⟩

/-- C9: `clear_all_members(guild=G)` stores `{}` at G's member path
only: afterwards nothing is stored under G's member subtree (so member
reads of G return their registered defaults), while the stored data at
every other guild's member path is exactly as before. -/
theorem C9_clear_all_members_frame (c : Config) (g g' : String) (store : JSON)
    (hne : g ≠ g') :
    (∀ rest : List String, rest ≠ [] →
      driverGet (c.clear_all_members (some g) store).1
        (c.unique_identifier :: Config.MEMBER :: g :: rest) = none) ∧
    (∀ (m k : String) (dflt : JSON),
      Value.call ⟨.tuple ([c.unique_identifier, Config.MEMBER, g, m, k].map PyIdent.str), dflt⟩
        JSON.null (c.clear_all_members (some g) store).1 = dflt) ∧
    (∀ rest : List String,
      driverGet (c.clear_all_members (some g) store).1
        (c.unique_identifier :: Config.MEMBER :: g' :: rest)
      = driverGet store (c.unique_identifier :: Config.MEMBER :: g' :: rest)) := by
  have hstore : (c.clear_all_members (some g) store).1
      = driverSet store [c.unique_identifier, Config.MEMBER, g] (JSON.obj []) := by
    simp [Config.clear_all_members, Config._clear_scope, Config._get_base_group,
      Group.set, JSON.isObj, Value.set, Value.identifiers, Group.toValue,
      identifiersOf_tuple_str_cons, identifiersOf_tuple_nil, Option.toList]
  refine ⟨fun rest hrest => ?_, fun m k dflt => ?_, fun rest => ?_⟩
  · rw [hstore]
    have h := driverGet_driverSet_append [c.unique_identifier, Config.MEMBER, g]
      store (JSON.obj []) rest
    simp only [List.cons_append, List.nil_append] at h
    rw [h]
    cases rest with
    | nil => exact absurd rfl hrest
    | cons r rs => rfl
  · have hidv : Value.identifiers
        ⟨.tuple ([c.unique_identifier, Config.MEMBER, g, m, k].map PyIdent.str), dflt⟩
        = [c.unique_identifier, Config.MEMBER, g, m, k] := identifiersOf_tuple_str _
    have h2 : driverGet (driverSet store [c.unique_identifier, Config.MEMBER, g]
        (JSON.obj [])) [c.unique_identifier, Config.MEMBER, g, m, k] = none := by
      have h := driverGet_driverSet_append [c.unique_identifier, Config.MEMBER, g]
        store (JSON.obj []) [m, k]
      simpa [driverGet, objFind] using h
    simp [Value.call, Value.identifiers, identifiersOf_tuple_str_cons,
      identifiersOf_tuple_nil, hstore, h2, JSON.isNull]
  · rw [hstore]
    have h := driverGet_driverSet_ne [c.unique_identifier, Config.MEMBER] g g' [] rest
      store (JSON.obj []) hne
    simpa using h

/-- Witness for C9: with member data stored for guilds `1` and `2`,
clearing guild `1`'s members makes a member read under guild `1` fall
back to its default, while guild `2`'s stored member data reads exactly
as in the original store. -/
theorem C9_clear_all_members_frame_witness :
    driverGet ((Config.clear_all_members ⟨"0", false, []⟩ (some "1")
        (JSON.obj [("0", JSON.obj [("MEMBER", JSON.obj
          [("1", JSON.obj [("10", JSON.obj [("foo", JSON.bool true)])]),
           ("2", JSON.obj [("20", JSON.obj [("foo", JSON.bool false)])])])])])).1)
        ["0", "MEMBER", "1", "10", "foo"] = none ∧
    Value.call ⟨.tuple (["0", "MEMBER", "1", "10", "foo"].map PyIdent.str), JSON.bool true⟩
      JSON.null ((Config.clear_all_members ⟨"0", false, []⟩ (some "1")
        (JSON.obj [("0", JSON.obj [("MEMBER", JSON.obj
          [("1", JSON.obj [("10", JSON.obj [("foo", JSON.bool true)])]),
           ("2", JSON.obj [("20", JSON.obj [("foo", JSON.bool false)])])])])])).1)
      = JSON.bool true ∧
    driverGet ((Config.clear_all_members ⟨"0", false, []⟩ (some "1")
        (JSON.obj [("0", JSON.obj [("MEMBER", JSON.obj
          [("1", JSON.obj [("10", JSON.obj [("foo", JSON.bool true)])]),
           ("2", JSON.obj [("20", JSON.obj [("foo", JSON.bool false)])])])])])).1)
        ["0", "MEMBER", "2", "20", "foo"]
      = driverGet (JSON.obj [("0", JSON.obj [("MEMBER", JSON.obj
          [("1", JSON.obj [("10", JSON.obj [("foo", JSON.bool true)])]),
           ("2", JSON.obj [("20", JSON.obj [("foo", JSON.bool false)])])])])])
          ["0", "MEMBER", "2", "20", "foo"] := by
  have h := C9_clear_all_members_frame ⟨"0", false, []⟩ "1" "2"
    (JSON.obj [("0", JSON.obj [("MEMBER", JSON.obj
      [("1", JSON.obj [("10", JSON.obj [("foo", JSON.bool true)])]),
       ("2", JSON.obj [("20", JSON.obj [("foo", JSON.bool false)])])])])])
    (by decide)
  exact ⟨h.1 ["10", "foo"] (by simp), h.2.1 "10" "foo" (JSON.bool true), h.2.2 ["20", "foo"]⟩

/-- Counterexample for C3: starting from registered defaults
`a = 1, b = {x: 2}`, the single call `register(a=5, b=3)` raises the
registration-conflict `KeyError` at `b`, yet the defaults tree is NOT
left as it was: the earlier entry `a = 5` of the failing call is
already applied (the tree maps `a` to `5`, no longer to `1`). -/
theorem C3_registration_conflict_counterexample :
    ((Config.mk "0" false [("GLOBAL", [("a", JSON.int 1), ("b", JSON.obj [("x", JSON.int 2)])])]).register_global
        [("a", JSON.int 5), ("b", JSON.int 3)]).2 = some (PyErr.keyError conflictMsg) ∧
    objFind ((objFind ((Config.mk "0" false
          [("GLOBAL", [("a", JSON.int 1), ("b", JSON.obj [("x", JSON.int 2)])])]).register_global
          [("a", JSON.int 5), ("b", JSON.int 3)]).1.defaultsTree "GLOBAL").getD []) "a"
      = some (JSON.int 5) ∧
    objFind ((objFind (Config.mk "0" false
          [("GLOBAL", [("a", JSON.int 1), ("b", JSON.obj [("x", JSON.int 2)])])]).defaultsTree
          "GLOBAL").getD []) "a"
      = some (JSON.int 1) ∧
    ¬ (some (JSON.int 5) = some (JSON.int 1)) := by
  refine ⟨?_, ?_, ?_, by simp⟩ <;>
    simp [Config.register_global, Config._register_default, registerKwargs,
      Config._get_defaults_dict, pySplitDunder, splitDunder, buildNested, isidentifier,
      Config._update_defaults, Config.updOne, objFind, objSet, conflictMsg]

/-- C3 (amended): a registration call consisting of a single entry
whose key is a plain valid segment and which conflicts at top level
with the opposite kind of registration raises the conflict `KeyError`
and leaves the whole defaults tree exactly unchanged (the partial
application shown in the counterexample can only involve entries
processed before the conflicting one in the same call). -/
theorem C3_single_entry_conflict (c : Config) (k : String) (v w : JSON)
    (es : List (String × JSON))
    (hk : pySplitDunder k = [k])
    (hkid : isidentifier k = true)
    (hscope : objFind c.defaultsTree Config.GLOBAL = some es)
    (hfind : objFind es k = some w)
    (hxor : v.isObj ≠ w.isObj) :
    c.register_global [(k, v)] = (c, some (PyErr.keyError conflictMsg)) := by
  have hga : Config._get_defaults_dict k v = .ok [(k, v)] := by
    simp [Config._get_defaults_dict, hk, buildNested, hkid]
  have hupd : Config.updOne k v es = (es, some (PyErr.keyError conflictMsg)) := by
    rw [Config.updOne.eq_def, hfind]
    cases v <;> cases w <;> simp_all [JSON.isObj]
  have hset : objSet c.defaultsTree Config.GLOBAL es = c.defaultsTree :=
    objSet_find_self _ _ _ hscope
  simp [Config.register_global, Config._register_default, hscope, registerKwargs, hga,
    Config._update_defaults, hupd, hset]

/-- Witness for the amended C3: registering the leaf `a = 0` where `a`
is already registered as a group raises the conflict error and returns
the `Config` unchanged. -/
theorem C3_single_entry_conflict_witness :
    (Config.mk "0" false [("GLOBAL", [("a", JSON.obj [])])]).register_global
        [("a", JSON.int 0)]
      = (Config.mk "0" false [("GLOBAL", [("a", JSON.obj [])])],
         some (PyErr.keyError conflictMsg)) :=
  C3_single_entry_conflict _ "a" (JSON.int 0) (JSON.obj []) [("a", JSON.obj [])]
    (by decide) (by decide) rfl rfl (by decide)

/-- Counterexample for C5: `a = "x_"` and `b = "y"` are valid
identifier segments (Python identifiers containing no `__` separator),
yet `register(a__b=v)` and `register(a={"b": v})` differ: the combined
name is `"x___y"`, which splits as `["x", "_y"]`, so the first call
registers `x.{_y}` while the second registers `x_.{y}`.  Moreover for a
mapping value `v` the path `a.b` resolves to a `Group`, and reading it
before any write yields the empty mapping, not `v`. -/
theorem C5_segmented_registration_counterexample :
    ("x_" ++ "__" ++ "y") = "x___y" ∧
    isidentifier "x_" = true ∧ pySplitDunder "x_" = ["x_"] ∧
    isidentifier "y" = true ∧ pySplitDunder "y" = ["y"] ∧
    pySplitDunder "x___y" = ["x", "_y"] ∧
    objFind ((objFind ((Config.mk "0" false []).register_global
          [("x___y", JSON.bool false)]).1.defaultsTree "GLOBAL").getD []) "x_" = none ∧
    objFind ((objFind ((Config.mk "0" false []).register_global
          [("x_", JSON.obj [("y", JSON.bool false)])]).1.defaultsTree "GLOBAL").getD []) "x_"
      = some (JSON.obj [("y", JSON.bool false)]) ∧
    readPath2 ((((Config.mk "0" false []).register_global
          [("a", JSON.obj [("b", JSON.obj [("c", JSON.int 1)])])]).1)._get_base_group
        Config.GLOBAL []) "a" "b" (JSON.obj [])
      = Except.ok (JSON.obj []) ∧
    ¬ ((Except.ok (JSON.obj []) : Except PyErr JSON)
        = Except.ok (JSON.obj [("c", JSON.int 1)])) := by
  refine ⟨rfl, by decide, by decide, by decide, by decide, by decide, ?_, ?_, ?_, by simp⟩ <;>
    simp [Config.register_global, Config._register_default, registerKwargs,
      Config._get_defaults_dict, pySplitDunder, splitDunder, buildNested, isidentifier,
      Config._update_defaults, Config.updOne, objFind, objSet, Config._get_base_group,
      readPath2, Group.getattr, Group.is_group, Group.is_value, Group.identifiers,
      identifiersOf_tuple_str_cons, identifiersOf_tuple_nil, JSON.entriesD, JSON.isObj,
      Group.call, Group.toValue, Value.call, Value.identifiers, driverGet, JSON.isNull]

/-- C5 (amended): for valid identifier segments `a`, `b` such that the
combined name `a__b` splits back into exactly `[a, b]` (this excludes
e.g. a segment `a` ending in an underscore) and a non-mapping value
`v`, `register(a__b=v)` produces exactly the same result as
`register(a={"b": v})` from any prior defaults tree, and on a fresh
`Config` reading the nested path `a.b` before any write returns `v`. -/
theorem C5_segmented_registration_equiv (a b uid : String) (v : JSON)
    (hsplit : pySplitDunder (a ++ "__" ++ b) = [a, b])
    (hsa : pySplitDunder a = [a])
    (hia : isidentifier a = true)
    (hib : isidentifier b = true)
    (hv : v.isObj = false) :
    (∀ c : Config, c.register_global [(a ++ "__" ++ b, v)]
        = c.register_global [(a, JSON.obj [(b, v)])]) ∧
    readPath2 (((Config.mk uid false []).register_global
        [(a ++ "__" ++ b, v)]).1._get_base_group Config.GLOBAL []) a b (JSON.obj [])
      = Except.ok v := by
  have h1 : Config._get_defaults_dict (a ++ "__" ++ b) v = .ok [(a, JSON.obj [(b, v)])] := by
    simp [Config._get_defaults_dict, hsplit, buildNested, hia, hib, Except.map]
  have h2 : Config._get_defaults_dict a (JSON.obj [(b, v)]) = .ok [(a, JSON.obj [(b, v)])] := by
    simp [Config._get_defaults_dict, hsa, buildNested, hia]
  constructor
  · intro c
    simp [Config.register_global, Config._register_default, registerKwargs, h1, h2]
  · have hreg : ((Config.mk uid false []).register_global [(a ++ "__" ++ b, v)]).1
        = Config.mk uid false [(Config.GLOBAL, [(a, JSON.obj [(b, v)])])] := by
      simp [Config.register_global, Config._register_default, registerKwargs, h1,
        Config._update_defaults, Config.updOne, objFind, objSet]
    rw [hreg]
    have hv2 := hv
    simp only [JSON.isObj] at hv2
    simp [Config._get_base_group, objFind, readPath2, Group.getattr, Group.is_group,
      Group.is_value, Group.identifiers, identifiersOf_tuple_str_cons,
      identifiersOf_tuple_nil, identifiersOf, PyIdentifiers.elems, PyIdent.toStr,
      JSON.entriesD, JSON.isObj, hv, hv2, Value.call, Value.identifiers,
      driverGet, JSON.isNull]

/-- Witness for the amended C5: `a = "foo"`, `b = "bar"`, `v = False`:
both registrations agree on a sample prior tree, and reading `foo.bar`
on a fresh `Config` with nothing stored returns `False`. -/
theorem C5_segmented_registration_equiv_witness :
    (Config.mk "9" true [("GUILD", [("z", JSON.int 4)])]).register_global
        [("foo" ++ "__" ++ "bar", JSON.bool false)]
      = (Config.mk "9" true [("GUILD", [("z", JSON.int 4)])]).register_global
        [("foo", JSON.obj [("bar", JSON.bool false)])] ∧
    readPath2 (((Config.mk "7" false []).register_global
        [("foo" ++ "__" ++ "bar", JSON.bool false)]).1._get_base_group Config.GLOBAL [])
      "foo" "bar" (JSON.obj []) = Except.ok (JSON.bool false) :=
  ⟨(C5_segmented_registration_equiv "foo" "bar" "7" (JSON.bool false)
      (by decide) (by decide) (by decide) (by decide) rfl).1
      (Config.mk "9" true [("GUILD", [("z", JSON.int 4)])]),
   (C5_segmented_registration_equiv "foo" "bar" "7" (JSON.bool false)
      (by decide) (by decide) (by decide) (by decide) rfl).2⟩

end Red
